import Mathlib

/-
Shallow embedding of the habit-tracker core: the Habit / HabitCompletion data
model, the field and cadence validators, the completion-tracking service, the
notification dispatcher and the scheduled jobs, together with theorems that
check the specification claims against these definitions.

Conventions of the embedding:
- calendar dates are integers (days); `today` is passed explicitly where the
  source reads the clock;
- time of day is an integer number of minutes since midnight (0 .. 1439);
- a raised exception becomes an `Except VError` error value; the distinct
  exception classes of the source (validation errors versus the uniqueness
  violation raised by the store) are distinct constructors;
- the rows of the completion table that belong to one habit are passed as an
  explicit list `List HabitCompletion`, mirroring `habit.completions`;
- Python truthiness of an optional string (None and the empty string are
  falsy) is `truthyStr`.
-/

/-- Error outcomes of the validators, the tracker and the store. -/
inductive VError where
  | pleasantHasReward
  | pleasantHasRelated
  | rewardAndRelated
  | relatedNotPleasant
  | durationTooLong
  | frequencyTooRare
  | alreadyCompletedToday
  | staleHabit
  | habitInconsistent
  | uniquenessViolation
  deriving DecidableEq, Repr

/-- The only field of the referenced related habit that the validators read. -/
structure RelatedHabit where
  is_pleasant : Bool
  deriving DecidableEq, Repr

/-- A Habit row. `pk = none` models an unsaved instance; `created_at` is the
calendar date of `created_at.date()`; `time` is minutes since midnight. -/
structure Habit where
  pk : Option Nat
  userId : Nat
  place : String
  time : Nat
  action : String
  is_pleasant : Bool
  related_habit : Option RelatedHabit
  frequency : Nat
  reward : Option String
  duration : Nat
  is_public : Bool
  created_at : Int
  deriving DecidableEq, Repr

/-- A HabitCompletion row of one habit: the completing user and the date. -/
structure HabitCompletion where
  userId : Nat
  date : Int
  deriving DecidableEq, Repr

/-- A User as consumed by the notification dispatcher. -/
structure User where
  email : String
  telegram_chat_id : Option String
  deriving DecidableEq, Repr

/-- Python truthiness of an optional string: None and the empty string are falsy. -/
def truthyStr : Option String → Bool
  | none => false
  | some s => !(s == "")

/-- validators.validate_frequency: error when the value exceeds 7. -/
def validate_frequency (value : Nat) : Except VError Unit :=
  if value > 7 then .error .frequencyTooRare else .ok ()

/-- HabitCompletionValidator.validate_habit_completion: given the date of the
last completion, error with the stale-habit message when more than 7 days have
passed since it. -/
def validate_habit_completion (habit : Habit) (last_completion_date : Option Int)
    (today : Int) : Except VError Unit :=
  match last_completion_date with
  | none => .ok ()
  | some d => if today - d > 7 then .error .staleHabit else .ok ()

/-- HabitCompletionValidator.validate_habit_consistency: skipped for unsaved
instances; for saved ones, error when no completion is dated within the last
7 days and the creation date lies strictly before seven days ago. -/
def validate_habit_consistency (habit : Habit) (completions : List HabitCompletion)
    (today : Int) : Except VError Unit :=
  match habit.pk with
  | none => .ok ()
  | some _ =>
    let seven_days_ago := today - 7
    let recent_completion := completions.any (fun c => decide (c.date ≥ seven_days_ago))
    if !recent_completion then
      if habit.created_at < seven_days_ago then .error .habitInconsistent
      else .ok ()
    else .ok ()

/-- HabitCompletionValidator.validate_habit_before_save: the frequency bound
followed by the consistency check. -/
def validate_habit_before_save (habit : Habit) (completions : List HabitCompletion)
    (today : Int) : Except VError Unit :=
  if habit.frequency > 7 then .error .frequencyTooRare
  else validate_habit_consistency habit completions today

/-- Habit.clean: the model-level field-combination checks. -/
def Habit.clean (h : Habit) : Except VError Unit :=
  if h.is_pleasant then
    if truthyStr h.reward then .error .pleasantHasReward
    else if h.related_habit.isSome then .error .pleasantHasRelated
    else .ok ()
  else
    if h.related_habit.isSome && truthyStr h.reward then .error .rewardAndRelated
    else if (match h.related_habit with
             | some r => !r.is_pleasant
             | none => false) then .error .relatedNotPleasant
    else .ok ()

/-- Habit.save: runs clean, then validate_habit_before_save, then persists
(the persisted row is returned on success). -/
def Habit.save (h : Habit) (completions : List HabitCompletion) (today : Int) :
    Except VError Habit :=
  match h.clean with
  | .error e => .error e
  | .ok _ =>
    match validate_habit_before_save h completions today with
    | .error e => .error e
    | .ok _ => .ok h

/-- HabitViewSet.toggle_public: flips is_public on the instance and saves it. -/
def toggle_public (h : Habit) (completions : List HabitCompletion) (today : Int) :
    Except VError Habit :=
  Habit.save { h with is_public := !h.is_public } completions today

/-- The validated_data / initial data dictionary seen by the serializer:
a missing key is `none`. -/
structure HabitData where
  is_pleasant : Option Bool
  related_habit : Option RelatedHabit
  reward : Option String
  duration : Option Nat
  frequency : Option Nat
  deriving DecidableEq, Repr

/-- HabitCompletionValidator.validate_habit_frequency_on_creation: error when
the frequency key is present, truthy and exceeds 7. -/
def validate_habit_frequency_on_creation (habit_data : HabitData) : Except VError Unit :=
  if (match habit_data.frequency with
      | some f => f != 0 && f > 7
      | none => false) then .error .frequencyTooRare
  else .ok ()

/-- HabitSerializer.validate: the serializer-level checks. `inst` is
self.instance, the habit being updated, or `none` on the create path. -/
def HabitSerializer_validate (inst : Option Habit) (data : HabitData) :
    Except VError HabitData :=
  let is_pleasant :=
    match data.is_pleasant with
    | some b => b
    | none =>
      match inst with
      | some h => h.is_pleasant
      | none => false
  let fieldErr : Option VError :=
    if is_pleasant then
      if truthyStr data.reward then some .pleasantHasReward
      else if data.related_habit.isSome then some .pleasantHasRelated
      else none
    else
      if data.related_habit.isSome && truthyStr data.reward then some .rewardAndRelated
      else if (match data.related_habit with
               | some r => !r.is_pleasant
               | none => false) then some .relatedNotPleasant
      else none
  match fieldErr with
  | some e => .error e
  | none =>
    if (match data.duration with
        | some d => d != 0 && d > 120
        | none => false) then .error .durationTooLong
    else
      match inst with
      | some _ => .ok data
      | none =>
        match validate_habit_frequency_on_creation data with
        | .error e => .error e
        | .ok _ => .ok data

/-- Existence test of a completion row for (user, date), mirroring
`completions.filter(user=user, date=today).exists()`. -/
def hasCompletionOn (cs : List HabitCompletion) (u : Nat) (d : Int) : Bool :=
  cs.any (fun c => c.userId == u && c.date == d)

/-- Maximum of a list of dates, or none when the list is empty. -/
def maxDate : List Int → Option Int
  | [] => none
  | d :: ds =>
    match maxDate ds with
    | none => some d
    | some m => some (max d m)

/-- Date of `completions.filter(user=user).order_by("-date").first()`:
the most recent completion date of the given user, or none. -/
def lastUserCompletionDate (cs : List HabitCompletion) (u : Nat) : Option Int :=
  maxDate ((cs.filter (fun c => c.userId == u)).map (fun c => c.date))

/-- The insert of a completion row, with the (habit, user, date) uniqueness
constraint of the store enforced atomically: insert-or-fail. -/
def createCompletion (cs : List HabitCompletion) (u : Nat) (today : Int) :
    Except VError (List HabitCompletion) :=
  if hasCompletionOn cs u today then .error .uniquenessViolation
  else .ok (⟨u, today⟩ :: cs)

/-- HabitTrackerService.mark_habit_completed, with the store state at insert
time (`insertState`) allowed to differ from the snapshot the two reads saw
(`snapshot`), which models a row inserted concurrently between the existence
check and the insert. The source wraps no handler around the insert, so an
insert-time uniqueness violation propagates as raised. -/
def mark_habit_completed_race (habit : Habit) (user : Nat)
    (snapshot insertState : List HabitCompletion) (today : Int) :
    Except VError (List HabitCompletion) :=
  if hasCompletionOn snapshot user today then .error .alreadyCompletedToday
  else
    match lastUserCompletionDate snapshot user with
    | some d =>
      match validate_habit_completion habit (some d) today with
      | .error e => .error e
      | .ok _ => createCompletion insertState user today
    | none => createCompletion insertState user today

/-- HabitTrackerService.mark_habit_completed run without interference: the
snapshot and the insert-time state coincide. -/
def mark_habit_completed (habit : Habit) (user : Nat) (cs : List HabitCompletion)
    (today : Int) : Except VError (List HabitCompletion) :=
  mark_habit_completed_race habit user cs cs today

/-- Severity levels of the local log. -/
inductive LogLevel where
  | info
  | warning
  | error
  deriving DecidableEq, Repr

/-- One local log record. -/
structure LogEntry where
  level : LogLevel
  text : String
  deriving DecidableEq, Repr

/-- TelegramService.send_message: the outcome of the outbound HTTP call is the
`gateway` argument; a request exception is caught and None is returned. -/
def TelegramService_send_message (chat_id : String) (text : String)
    (gateway : Except String String) : Option String :=
  match gateway with
  | .ok body => some body
  | .error _ => none

/-- Message body selected by message type, substituting the habit fields
(the templates are abridged to their substituted data). -/
def reminder_message (habit : Habit) (message_type : String) (reason : Option String)
    (custom_message : Option String) : String :=
  match custom_message with
  | some m => m
  | none =>
    if message_type == "inactive" then
      "You have not done your habit for a while. Habit: " ++ habit.action ++
        ". Reason: " ++ reason.getD "" ++ ". Time: " ++ toString habit.time ++
        ". Place: " ++ habit.place
    else if message_type == "morning" then
      "Good morning. Today: " ++ habit.action ++ ". Time: " ++ toString habit.time ++
        ". Place: " ++ habit.place
    else
      "Habit reminder. Habit: " ++ habit.action ++ ". Time: " ++ toString habit.time ++
        ". Place: " ++ habit.place ++ ". Duration: " ++ toString habit.duration ++
        " seconds"

/-- HabitReminderService.send_reminder_notification: builds the message, sends
it when a chat id is configured and truthy, otherwise logs it at warning
level; always returns True, paired here with the emitted log records. -/
def send_reminder_notification (user : User) (habit : Habit) (message_type : String)
    (reason : Option String) (custom_message : Option String)
    (gateway : Except String String) : Bool × List LogEntry :=
  let message := reminder_message habit message_type reason custom_message
  if truthyStr user.telegram_chat_id then
    match TelegramService_send_message (user.telegram_chat_id.getD "") message gateway with
    | some _ =>
      (true, [⟨.info, "Telegram notification sent to user " ++ user.email⟩])
    | none =>
      (true, [⟨.error, "Could not send Telegram notification to user " ++ user.email⟩])
  else
    (true, [⟨.warning, "Notification for " ++ user.email ++ ": " ++ message⟩,
            ⟨.warning, "Telegram Chat ID missing. Notification not sent."⟩])

/-- One habit of the store together with its completion rows. -/
structure HabitState where
  habit : Habit
  completions : List HabitCompletion
  deriving DecidableEq, Repr

/-- Reason attached to an inactivity reminder. -/
inductive InactiveReason where
  | neverCompleted
  | notDoneOver7Days (last : Int)
  deriving DecidableEq, Repr

/-- Per-habit decision of tasks.check_habit_completions: the reminder reason
when one is sent, none otherwise. -/
def inactive_decision (habit : Habit) (completions : List HabitCompletion)
    (today : Int) : Option InactiveReason :=
  let seven_days_ago := today - 7
  match lastUserCompletionDate completions habit.userId with
  | none =>
    if habit.created_at < seven_days_ago then some .neverCompleted else none
  | some d =>
    if d < seven_days_ago then some (.notDoneOver7Days d) else none

/-- tasks.check_habit_completions: scans every habit and returns the inactive
reminders sent, each with its reason. -/
def check_habit_completions (states : List HabitState) (today : Int) :
    List (Habit × InactiveReason) :=
  states.filterMap fun s =>
    (inactive_decision s.habit s.completions today).map fun r => (s.habit, r)

/-- tasks.send_daily_reminders: selects the habits whose time lies between the
current time and the time-of-day component of now plus one hour, and sends a
daily reminder to those without a completion dated today. -/
def send_daily_reminders (states : List HabitState) (nowDate : Int) (nowMin : Nat) :
    List Habit :=
  let current_time := nowMin
  let time_end := (nowMin + 60) % 1440
  let habits_to_remind := states.filter fun s =>
    decide (current_time ≤ s.habit.time) && decide (s.habit.time ≤ time_end)
  (habits_to_remind.filter fun s =>
      !(s.completions.any fun c => c.userId == s.habit.userId && c.date == nowDate)).map
    fun s => s.habit

/-- tasks.cleanup_old_completions: deletes the completions dated strictly
before ninety days ago and returns the remaining rows with the deleted count. -/
def cleanup_old_completions (completions : List HabitCompletion) (today : Int) :
    List HabitCompletion × Nat :=
  let ninety_days_ago := today - 90
  let old_completions := completions.filter fun c => decide (c.date < ninety_days_ago)
  let deleted_count := old_completions.length
  (completions.filter (fun c => !decide (c.date < ninety_days_ago)), deleted_count)

/-- The date d is a completion date of user u in cs and no completion of u in
cs is later: the property form of the most recent completion date. -/
abbrev IsLastCompletionDate (cs : List HabitCompletion) (u : Nat) (d : Int) : Prop :=
  (∃ c ∈ cs, c.userId = u ∧ c.date = d) ∧ ∀ c ∈ cs, c.userId = u → c.date ≤ d

lemma maxDate_eq_none_iff (l : List Int) : maxDate l = none ↔ l = [] := by
  cases l with
  | nil => simp [maxDate]
  | cons d ds =>
    simp only [maxDate]
    cases h : maxDate ds <;> simp

lemma maxDate_mem {l : List Int} {m : Int} (h : maxDate l = some m) : m ∈ l := by
  induction l generalizing m with
  | nil => simp [maxDate] at h
  | cons d ds ih =>
    rw [maxDate] at h
    cases hm : maxDate ds with
    | none =>
      rw [hm] at h
      simp only [Option.some.injEq] at h
      simp [h]
    | some m2 =>
      rw [hm] at h
      simp only [Option.some.injEq] at h
      rcases max_choice d m2 with hc | hc <;> rw [hc] at h
      · simp [h]
      · exact List.mem_cons_of_mem d (h ▸ ih hm)

lemma maxDate_le {l : List Int} {m : Int} (h : maxDate l = some m) :
    ∀ x ∈ l, x ≤ m := by
  induction l generalizing m with
  | nil => simp [maxDate] at h
  | cons d ds ih =>
    rw [maxDate] at h
    cases hm : maxDate ds with
    | none =>
      rw [hm] at h
      simp only [Option.some.injEq] at h
      have hnil := (maxDate_eq_none_iff ds).mp hm
      subst hnil
      simp [h]
    | some m2 =>
      rw [hm] at h
      simp only [Option.some.injEq] at h
      subst h
      intro x hx
      rcases List.mem_cons.mp hx with rfl | hx2
      · exact le_max_left _ _
      · exact le_trans (ih hm x hx2) (le_max_right _ _)

lemma maxDate_eq_some_of {l : List Int} {m : Int} (hm : m ∈ l)
    (hle : ∀ x ∈ l, x ≤ m) : maxDate l = some m := by
  cases hml : maxDate l with
  | none =>
    rw [maxDate_eq_none_iff] at hml
    subst hml
    simp at hm
  | some m2 =>
    have h1 : m ≤ m2 := maxDate_le hml m hm
    have h2 : m2 ≤ m := hle m2 (maxDate_mem hml)
    exact congrArg some (le_antisymm h2 h1)

lemma lastUserCompletionDate_eq_none_iff (cs : List HabitCompletion) (u : Nat) :
    lastUserCompletionDate cs u = none ↔ ∀ c ∈ cs, c.userId ≠ u := by
  rw [lastUserCompletionDate, maxDate_eq_none_iff, List.map_eq_nil_iff,
    List.filter_eq_nil_iff]
  simp

lemma lastUserCompletionDate_eq_some_iff (cs : List HabitCompletion) (u : Nat)
    (d : Int) :
    lastUserCompletionDate cs u = some d ↔ IsLastCompletionDate cs u d := by
  constructor
  · intro h
    constructor
    · rcases List.mem_map.mp (maxDate_mem h) with ⟨c, hcf, hcd⟩
      have hc := List.mem_filter.mp hcf
      exact ⟨c, hc.1, by simpa using hc.2, hcd⟩
    · intro c hc hcu
      exact maxDate_le h c.date
        (List.mem_map.mpr ⟨c, List.mem_filter.mpr ⟨hc, by simp [hcu]⟩, rfl⟩)
  · rintro ⟨⟨c, hc, hcu, hcd⟩, hmax⟩
    apply maxDate_eq_some_of
    · exact List.mem_map.mpr ⟨c, List.mem_filter.mpr ⟨hc, by simp [hcu]⟩, hcd⟩
    · intro x hx
      rcases List.mem_map.mp hx with ⟨c2, hc2f, rfl⟩
      have h2 := List.mem_filter.mp hc2f
      exact hmax c2 h2.1 (by simpa using h2.2)

lemma hasCompletionOn_iff (cs : List HabitCompletion) (u : Nat) (d : Int) :
    hasCompletionOn cs u d = true ↔ ∃ c ∈ cs, c.userId = u ∧ c.date = d := by
  simp [hasCompletionOn]

lemma hasCompletionOn_eq_false_iff (cs : List HabitCompletion) (u : Nat) (d : Int) :
    hasCompletionOn cs u d = false ↔ ∀ c ∈ cs, ¬(c.userId = u ∧ c.date = d) := by
  simp [hasCompletionOn, not_and]

/-- A basic useful habit row, saved with pk 1, created at day 0. -/
def habit0 : Habit :=
  { pk := some 1, userId := 0, place := "home", time := 600, action := "read",
    is_pleasant := false, related_habit := none, frequency := 1, reward := none,
    duration := 30, is_public := false, created_at := 0 }

/-- C1: mark_habit_completed fails with AlreadyCompletedToday when a
completion for (habit, user, today) already exists; otherwise, when the most
recent prior completion of (habit, user) exists and lies more than 7 days
before today, it fails with StaleHabit; otherwise it inserts exactly one new
completion dated today and returns ok. -/
theorem C1_mark_habit_completed_correct (habit : Habit) (user : Nat)
    (cs : List HabitCompletion) (today : Int) :
    ((∃ c ∈ cs, c.userId = user ∧ c.date = today) →
      mark_habit_completed habit user cs today = .error .alreadyCompletedToday)
    ∧ (∀ d : Int, (¬∃ c ∈ cs, c.userId = user ∧ c.date = today) →
      IsLastCompletionDate cs user d → today - d > 7 →
      mark_habit_completed habit user cs today = .error .staleHabit)
    ∧ ((¬∃ c ∈ cs, c.userId = user ∧ c.date = today) →
      (∀ d : Int, IsLastCompletionDate cs user d → today - d ≤ 7) →
      mark_habit_completed habit user cs today = .ok (⟨user, today⟩ :: cs)) := by
  refine ⟨?_, ?_, ?_⟩
  · intro hex
    have hb : hasCompletionOn cs user today = true :=
      (hasCompletionOn_iff cs user today).mpr hex
    simp [mark_habit_completed, mark_habit_completed_race, hb]
  · intro d hnex hlast hgap
    have hb : hasCompletionOn cs user today = false := by
      rw [hasCompletionOn_eq_false_iff]
      intro c hc hcc
      exact hnex ⟨c, hc, hcc⟩
    have hl : lastUserCompletionDate cs user = some d :=
      (lastUserCompletionDate_eq_some_iff cs user d).mpr hlast
    simp [mark_habit_completed, mark_habit_completed_race, hb, hl,
      validate_habit_completion, hgap]
  · intro hnex hbound
    have hb : hasCompletionOn cs user today = false := by
      rw [hasCompletionOn_eq_false_iff]
      intro c hc hcc
      exact hnex ⟨c, hc, hcc⟩
    cases hl : lastUserCompletionDate cs user with
    | none =>
      simp [mark_habit_completed, mark_habit_completed_race, hb, hl,
        createCompletion]
    | some d =>
      have hle : today - d ≤ 7 :=
        hbound d ((lastUserCompletionDate_eq_some_iff cs user d).mp hl)
      have hnot : ¬(today - d > 7) := by omega
      simp [mark_habit_completed, mark_habit_completed_race, hb, hl,
        validate_habit_completion, hnot, createCompletion]

/-- Witness for C1 at concrete inputs: a user with a sole completion 10 days
old is refused as stale, and one with a 5 day old completion gets exactly one
new completion dated today. -/
theorem C1_witness :
    mark_habit_completed habit0 0 [⟨0, 0⟩] 10 = .error .staleHabit ∧
    mark_habit_completed habit0 0 [⟨0, 5⟩] 10 = .ok [⟨0, 10⟩, ⟨0, 5⟩] := by
  constructor
  · exact (C1_mark_habit_completed_correct habit0 0 [⟨0, 0⟩] 10).2.1 0
      (by decide) (by decide) (by decide)
  · refine (C1_mark_habit_completed_correct habit0 0 [⟨0, 5⟩] 10).2.2
      (by decide) ?_
    intro d hd
    have h5 : lastUserCompletionDate [⟨0, 5⟩] 0 = some d :=
      (lastUserCompletionDate_eq_some_iff _ _ _).mpr hd
    have h5b : lastUserCompletionDate [⟨0, 5⟩] 0 = some 5 := by decide
    rw [h5b] at h5
    have hd5 : (5 : Int) = d := by simpa using h5
    omega

/-- Modelled from the spec wording of the validateHabitFields contract: the
field invariant checks evaluated in the stated order with the first failure
winning, restricted to the four checks the model layer implements (the
duration bound of the spec is absent there). -/
def clean_spec_order (h : Habit) : Except VError Unit :=
  if h.is_pleasant && truthyStr h.reward then .error .pleasantHasReward
  else if h.is_pleasant && h.related_habit.isSome then .error .pleasantHasRelated
  else if !h.is_pleasant && (h.related_habit.isSome && truthyStr h.reward) then
    .error .rewardAndRelated
  else if !h.is_pleasant && (match h.related_habit with
                             | some r => !r.is_pleasant
                             | none => false) then .error .relatedNotPleasant
  else .ok ()

/-- Modelled from the spec wording of the validateHabitFields contract for the
serializer path: the four field checks in the stated order, then the partial
duration check (upper bound only, skipped for a missing or zero value), then
the creation-only frequency check. -/
def serializer_spec_order (inst : Option Habit) (data : HabitData) :
    Except VError HabitData :=
  let is_pleasant :=
    match data.is_pleasant with
    | some b => b
    | none =>
      match inst with
      | some h => h.is_pleasant
      | none => false
  if is_pleasant && truthyStr data.reward then .error .pleasantHasReward
  else if is_pleasant && data.related_habit.isSome then .error .pleasantHasRelated
  else if !is_pleasant && (data.related_habit.isSome && truthyStr data.reward) then
    .error .rewardAndRelated
  else if !is_pleasant && (match data.related_habit with
                           | some r => !r.is_pleasant
                           | none => false) then .error .relatedNotPleasant
  else if (match data.duration with
           | some d => d != 0 && d > 120
           | none => false) then .error .durationTooLong
  else
    match inst with
    | some _ => .ok data
    | none =>
      match validate_habit_frequency_on_creation data with
      | .error e => .error e
      | .ok _ => .ok data

/-- A habit whose duration is out of range (121 seconds) but whose other
fields are consistent; unsaved, so the consistency check is skipped. -/
def h121 : Habit :=
  { pk := none, userId := 0, place := "home", time := 600, action := "run",
    is_pleasant := false, related_habit := none, frequency := 1, reward := none,
    duration := 121, is_public := false, created_at := 0 }

/-- The serializer data dictionary matching h121. -/
def d121 : HabitData :=
  { is_pleasant := some false, related_habit := none, reward := none,
    duration := some 121, frequency := some 1 }

/-- C2 counterexample: the model-level validation path accepts and persists a
habit with duration 121, while the serializer path rejects the same data with
the duration error, so the two paths do not apply invariant 5 identically and
the model path can bypass the duration rule. -/
theorem C2_counterexample :
    Habit.clean h121 = .ok () ∧
    Habit.save h121 [] 0 = .ok h121 ∧
    HabitSerializer_validate none d121 = .error .durationTooLong ∧
    h121.duration = 121 :=
  ⟨rfl, rfl, rfl, rfl⟩

/-- C2 amended: both validation paths apply the four field-combination
invariants in the stated order with the first failure winning; the duration
bound is checked only on the serializer path and only as an upper bound that
is skipped for a missing or zero value, so the model path does not enforce
invariant 5. -/
theorem C2_amended_first_failure_order :
    (∀ h : Habit, Habit.clean h = clean_spec_order h)
    ∧ (∀ (inst : Option Habit) (data : HabitData),
        HabitSerializer_validate inst data = serializer_spec_order inst data) := by
  constructor
  · intro h
    rcases h with ⟨pk, uid, pl, tm, ac, ip, rel, fr, rwd, du, pub, ca⟩
    cases ip <;>
      rcases rel with _ | ⟨⟨rpb⟩⟩ <;>
      (try cases rpb) <;>
      rcases rwd with _ | s <;>
      (try cases hs : s == "") <;>
      simp [Habit.clean, clean_spec_order, truthyStr, *]
  · intro inst data
    rcases data with ⟨dip, drel, drwd, ddur, dfreq⟩
    rcases dip with _ | b
    · rcases inst with _ | h
      · rcases drel with _ | ⟨⟨rpb⟩⟩ <;>
          (try cases rpb) <;>
          rcases drwd with _ | s <;>
          (try cases hs : s == "") <;>
          simp [HabitSerializer_validate, serializer_spec_order, truthyStr, *]
      · rcases h with ⟨pk, uid, pl, tm, ac, ip, rel, fr, rwd, du, pub, ca⟩
        cases ip <;>
          rcases drel with _ | ⟨⟨rpb⟩⟩ <;>
          (try cases rpb) <;>
          rcases drwd with _ | s <;>
          (try cases hs : s == "") <;>
          simp [HabitSerializer_validate, serializer_spec_order, truthyStr, *]
    · cases b <;>
        rcases drel with _ | ⟨⟨rpb⟩⟩ <;>
        (try cases rpb) <;>
        rcases drwd with _ | s <;>
        (try cases hs : s == "") <;>
        simp [HabitSerializer_validate, serializer_spec_order, truthyStr, *]

/-- A habit with duration 200, otherwise consistent and unsaved. -/
def hdur200 : Habit := { h121 with duration := 200 }

/-- A habit with frequency 0, otherwise consistent and unsaved. -/
def hfreq0 : Habit := { h121 with duration := 50, frequency := 0 }

/-- C3 counterexample: Habit.save persists a habit with duration 200 and one
with frequency 0, so neither the duration bounds nor the frequency lower
bound are checked before persisting. -/
theorem C3_counterexample :
    (Habit.save hdur200 [] 0 = .ok hdur200 ∧ hdur200.duration = 200) ∧
    (Habit.save hfreq0 [] 0 = .ok hfreq0 ∧ hfreq0.frequency = 0) :=
  ⟨⟨rfl, rfl⟩, ⟨rfl, rfl⟩⟩

/-- C3 amended: before every persist, Habit.save runs the field-combination
checks and rejects frequency above 7, and that is all: a habit that persists
successfully is stored unchanged and satisfies frequency at most 7, while the
duration bounds and the frequency lower bound are not checked at save time. -/
theorem C3_amended_save_checks (h : Habit) (cs : List HabitCompletion)
    (today : Int) (h2 : Habit) (hsave : Habit.save h cs today = .ok h2) :
    h2 = h ∧ h.frequency ≤ 7 := by
  unfold Habit.save at hsave
  cases hc : h.clean with
  | error e => rw [hc] at hsave; cases hsave
  | ok u =>
    rw [hc] at hsave
    unfold validate_habit_before_save at hsave
    by_cases hf : h.frequency > 7
    · simp [hf] at hsave
    · cases hv : validate_habit_consistency h cs today with
      | error e => simp [hf, hv] at hsave
      | ok u2 =>
        simp [hf, hv] at hsave
        exact ⟨hsave.symm, by omega⟩

/-- A habit that passes every save-time check. -/
def hgood : Habit := { h121 with duration := 60 }

/-- Witness for C3 amended: the checked habit persists unchanged with
frequency at most 7. -/
theorem C3_amended_witness : hgood = hgood ∧ hgood.frequency ≤ 7 :=
  C3_amended_save_checks hgood [] 0 hgood rfl

/-- C4: validate_habit_consistency fails with HabitInconsistent exactly when
the habit is already persisted, has no completion dated within the trailing
7 days and its creation date is more than 7 days in the past; for a new,
never-saved habit it always succeeds. -/
theorem C4_validate_habit_consistency_correct (habit : Habit)
    (cs : List HabitCompletion) (today : Int) :
    (validate_habit_consistency habit cs today = .error .habitInconsistent ↔
      (habit.pk ≠ none ∧ (∀ c ∈ cs, c.date < today - 7) ∧
        habit.created_at < today - 7))
    ∧ (habit.pk = none → validate_habit_consistency habit cs today = .ok ()) := by
  constructor
  · cases hpk : habit.pk with
    | none => simp [validate_habit_consistency, hpk]
    | some k =>
      have hiff : (cs.any fun c => decide (c.date ≥ today - 7)) = false ↔
          ∀ c ∈ cs, c.date < today - 7 := by
        simp only [List.any_eq_false, decide_eq_true_eq]
        constructor <;> (intro h c hc; have := h c hc; omega)
      cases hA : (cs.any fun c => decide (c.date ≥ today - 7)) with
      | false =>
        have hall := hiff.mp hA
        by_cases hc : habit.created_at < today - 7
        · have hL : validate_habit_consistency habit cs today =
              .error .habitInconsistent := by
            simp only [validate_habit_consistency, hpk]
            rw [hA]
            simp [hc]
          rw [hL]
          exact iff_of_true rfl ⟨by simp [hpk], hall, hc⟩
        · have hL : validate_habit_consistency habit cs today = .ok () := by
            simp only [validate_habit_consistency, hpk]
            rw [hA]
            simp [hc]
          rw [hL]
          exact iff_of_false (by simp) fun hx => hc hx.2.2
      | true =>
        have hnall : ¬∀ c ∈ cs, c.date < today - 7 := by
          intro hall
          rw [hiff.mpr hall] at hA
          cases hA
        have hL : validate_habit_consistency habit cs today = .ok () := by
          simp only [validate_habit_consistency, hpk]
          rw [hA]
          simp
        rw [hL]
        exact iff_of_false (by simp) fun hx => hnall hx.2.1
  · intro hpk
    simp [validate_habit_consistency, hpk]

/-- Witness for C4 at concrete inputs: the unsaved twin of habit0 passes the
consistency check while the saved habit0, with no completions and created 20
days before, fails it. -/
theorem C4_witness :
    validate_habit_consistency { habit0 with pk := none } [] 20 = .ok () ∧
    validate_habit_consistency habit0 [] 20 = .error .habitInconsistent := by
  constructor
  · exact (C4_validate_habit_consistency_correct { habit0 with pk := none } [] 20).2 rfl
  · exact (C4_validate_habit_consistency_correct habit0 [] 20).1.mpr
      ⟨by decide, by simp, by decide⟩

/-- C5 counterexample: when the snapshot read by the existence check is empty
but the store already holds a completion for (user, today) at insert time, the
tracker surfaces the raw uniqueness violation, not AlreadyCompletedToday. -/
theorem C5_counterexample :
    mark_habit_completed_race habit0 0 [] [⟨0, 5⟩] 5 = .error .uniquenessViolation ∧
    VError.uniquenessViolation ≠ VError.alreadyCompletedToday :=
  ⟨rfl, by decide⟩

/-- C5 amended: the tracker reports AlreadyCompletedToday only from its
pre-insert existence check; when the insert itself hits the (habit, user,
date) uniqueness constraint, the raw uniqueness violation propagates to the
caller unmapped. -/
theorem C5_amended_raw_violation (habit : Habit) (user : Nat)
    (snapshot insertState : List HabitCompletion) (today : Int)
    (h1 : ¬∃ c ∈ snapshot, c.userId = user ∧ c.date = today)
    (h2 : ∀ d : Int, IsLastCompletionDate snapshot user d → today - d ≤ 7)
    (h3 : ∃ c ∈ insertState, c.userId = user ∧ c.date = today) :
    mark_habit_completed_race habit user snapshot insertState today =
      .error .uniquenessViolation := by
  have hb : hasCompletionOn snapshot user today = false := by
    rw [hasCompletionOn_eq_false_iff]
    intro c hc hcc
    exact h1 ⟨c, hc, hcc⟩
  have hbi : hasCompletionOn insertState user today = true :=
    (hasCompletionOn_iff _ _ _).mpr h3
  cases hl : lastUserCompletionDate snapshot user with
  | none => simp [mark_habit_completed_race, hb, hl, createCompletion, hbi]
  | some d =>
    have hle : today - d ≤ 7 :=
      h2 d ((lastUserCompletionDate_eq_some_iff _ _ _).mp hl)
    have hnot : ¬(today - d > 7) := by omega
    simp [mark_habit_completed_race, hb, hl, validate_habit_completion, hnot,
      createCompletion, hbi]

/-- Witness for C5 amended at a concrete race state. -/
theorem C5_amended_witness :
    mark_habit_completed_race habit0 1 [] [⟨1, 5⟩] 5 =
      .error .uniquenessViolation := by
  apply C5_amended_raw_violation habit0 1 [] [⟨1, 5⟩] 5
  · simp
  · intro d hd
    rcases hd.1 with ⟨c, hc, _⟩
    simp at hc
  · exact ⟨⟨1, 5⟩, by simp, rfl, rfl⟩

/-- C6 counterexample: with no configured channel the call returns True, and
with a configured channel and a failing gateway it also returns True; in
neither case is delivered reported as false through the return value. -/
theorem C6_counterexample :
    (send_reminder_notification ⟨"a@b.c", none⟩ habit0 "daily" none none
      (.ok "resp")).1 = true ∧
    (send_reminder_notification ⟨"a@b.c", some "42"⟩ habit0 "daily" none none
      (.error "net down")).1 = true :=
  ⟨rfl, rfl⟩

/-- C6 amended: send_reminder_notification never raises and returns True
unconditionally, so delivery failure is not reported through the return
value; when the user has no truthy messaging channel the message is logged at
warning level, and when the channel is present but the gateway call errors,
the error is caught and logged at error level. -/
theorem C6_amended_always_true_and_logs (user : User) (habit : Habit)
    (message_type : String) (reason custom_message : Option String)
    (gateway : Except String String) :
    (send_reminder_notification user habit message_type reason custom_message
        gateway).1 = true
    ∧ (truthyStr user.telegram_chat_id = false →
        ∃ e ∈ (send_reminder_notification user habit message_type reason
          custom_message gateway).2, e.level = LogLevel.warning)
    ∧ (truthyStr user.telegram_chat_id = true → ∀ s, gateway = .error s →
        ∃ e ∈ (send_reminder_notification user habit message_type reason
          custom_message gateway).2, e.level = LogLevel.error) := by
  refine ⟨?_, ?_, ?_⟩
  · cases ht : truthyStr user.telegram_chat_id
    · simp [send_reminder_notification, ht]
    · cases gateway <;>
        simp [send_reminder_notification, ht, TelegramService_send_message]
  · intro ht
    simp [send_reminder_notification, ht]
  · intro ht s hg
    subst hg
    simp [send_reminder_notification, ht, TelegramService_send_message]

/-- Witness for C6 amended at concrete inputs: the warning record for a user
without a channel and the error record for a failing gateway call. -/
theorem C6_amended_witness :
    (∃ e ∈ (send_reminder_notification ⟨"w@x.y", none⟩ habit0 "daily" none none
      (.ok "r")).2, e.level = LogLevel.warning) ∧
    (∃ e ∈ (send_reminder_notification ⟨"w@x.y", some "7"⟩ habit0 "daily" none
      none (.error "boom")).2, e.level = LogLevel.error) := by
  constructor
  · exact (C6_amended_always_true_and_logs ⟨"w@x.y", none⟩ habit0 "daily" none
      none (.ok "r")).2.1 rfl
  · exact (C6_amended_always_true_and_logs ⟨"w@x.y", some "7"⟩ habit0 "daily"
      none none (.error "boom")).2.2 rfl "boom" rfl

/-- C7: the inactivity check sends an inactive reminder exactly when the habit
has never been completed by its owner and was created more than 7 days ago,
or when the most recent completion is more than 7 days old; in particular a
habit created on day 0 with no completions gets a never-completed reminder
when the job runs on day 8. -/
theorem C7_inactivity_check_correct (habit : Habit) (cs : List HabitCompletion)
    (today : Int) :
    ((∃ r, inactive_decision habit cs today = some r) ↔
      ((∀ c ∈ cs, c.userId ≠ habit.userId) ∧ habit.created_at < today - 7)
        ∨ (∃ d, IsLastCompletionDate cs habit.userId d ∧ d < today - 7))
    ∧ ((∀ c ∈ cs, c.userId ≠ habit.userId) → habit.created_at < today - 7 →
        check_habit_completions [⟨habit, cs⟩] today =
          [(habit, .neverCompleted)])
    ∧ check_habit_completions [⟨habit0, []⟩] 8 = [(habit0, .neverCompleted)] := by
  refine ⟨?_, ?_, rfl⟩
  · cases hl : lastUserCompletionDate cs habit.userId with
    | none =>
      have hnone := (lastUserCompletionDate_eq_none_iff cs habit.userId).mp hl
      constructor
      · rintro ⟨r, hr⟩
        by_cases hc : habit.created_at < today - 7
        · exact Or.inl ⟨hnone, hc⟩
        · simp [inactive_decision, hl, hc] at hr
      · rintro (⟨_, hc⟩ | ⟨d, hd, _⟩)
        · exact ⟨.neverCompleted, by simp [inactive_decision, hl, hc]⟩
        · have hsome := (lastUserCompletionDate_eq_some_iff cs habit.userId d).mpr hd
          rw [hl] at hsome
          cases hsome
    | some d0 =>
      have hd0 := (lastUserCompletionDate_eq_some_iff cs habit.userId d0).mp hl
      constructor
      · rintro ⟨r, hr⟩
        by_cases hc : d0 < today - 7
        · exact Or.inr ⟨d0, hd0, hc⟩
        · simp [inactive_decision, hl, hc] at hr
      · rintro (⟨hall, _⟩ | ⟨d, hd, hlt⟩)
        · rcases hd0.1 with ⟨c, hc, hcu, _⟩
          exact absurd hcu (hall c hc)
        · have hsome := (lastUserCompletionDate_eq_some_iff cs habit.userId d).mpr hd
          rw [hl] at hsome
          have hdd : d0 = d := by
            simpa using hsome
          subst hdd
          exact ⟨InactiveReason.notDoneOver7Days d0,
            by simp [inactive_decision, hl, hlt]⟩
  · intro h1 h2
    have hl : lastUserCompletionDate cs habit.userId = none :=
      (lastUserCompletionDate_eq_none_iff cs habit.userId).mpr h1
    simp [check_habit_completions, inactive_decision, hl, h2]

/-- Witness for C7: the day-8 run over the day-0 habit with no completions,
obtained by applying the characterization. -/
theorem C7_witness :
    check_habit_completions [⟨habit0, []⟩] 8 = [(habit0, .neverCompleted)] :=
  (C7_inactivity_check_correct habit0 [] 8).2.1 (by simp) (by decide)

/-- A habit scheduled at 23:45, stored as 1425 minutes since midnight. -/
def habit2345 : Habit := { habit0 with time := 1425 }

/-- C8 counterexample: at 23:30 (minute 1410) a habit scheduled at 23:45 lies
inside the next hour and has no completion today, yet the hourly job selects
nothing, because the window crosses midnight. -/
theorem C8_counterexample :
    send_daily_reminders [⟨habit2345, []⟩] 100 1410 = [] ∧
    1410 ≤ habit2345.time ∧ habit2345.time ≤ 1410 + 60 :=
  ⟨rfl, by decide, by decide⟩

/-- C8 amended: the hourly job sends a daily reminder exactly for the habits
with no completion dated today whose time t satisfies now ≤ t and t is at
most the time-of-day component of now plus one hour; both bounds are compared
within a single day, so for any run in the hour before midnight the window is
empty and no reminder at all is sent. -/
theorem C8_amended_window (states : List HabitState) (nowDate : Int)
    (nowMin : Nat) (habit : Habit) :
    (habit ∈ send_daily_reminders states nowDate nowMin ↔
      ∃ s ∈ states, s.habit = habit ∧ nowMin ≤ habit.time ∧
        habit.time ≤ (nowMin + 60) % 1440 ∧
        ∀ c ∈ s.completions, ¬(c.userId = habit.userId ∧ c.date = nowDate))
    ∧ (1380 ≤ nowMin → nowMin ≤ 1439 →
        send_daily_reminders states nowDate nowMin = []) := by
  constructor
  · simp only [send_daily_reminders, List.mem_map, List.mem_filter,
      Bool.and_eq_true, decide_eq_true_eq, List.any_eq_false, Bool.not_eq_true',
      beq_iff_eq, not_and]
    constructor
    · rintro ⟨s, ⟨⟨hs, h1, h2⟩, h3⟩, rfl⟩
      exact ⟨s, hs, rfl, h1, h2, h3⟩
    · rintro ⟨s, hs, rfl, h1, h2, h3⟩
      exact ⟨s, ⟨⟨hs, h1, h2⟩, h3⟩, rfl⟩
  · intro h1 h2
    unfold send_daily_reminders
    have hempty : states.filter (fun s =>
        decide (nowMin ≤ s.habit.time) &&
          decide (s.habit.time ≤ (nowMin + 60) % 1440)) = [] := by
      rw [List.filter_eq_nil_iff]
      intro s hs
      simp only [Bool.and_eq_true, decide_eq_true_eq, not_and]
      intro hge hle
      omega
    simp [hempty]

/-- Witness for C8 amended: the empty-window conclusion at the 23:30 run. -/
theorem C8_amended_witness :
    send_daily_reminders [⟨habit2345, []⟩] 100 1410 = [] :=
  (C8_amended_window [⟨habit2345, []⟩] 100 1410 habit2345).2 (by decide) (by decide)

/-- C9: the retention cleanup keeps exactly the completions not older than 90
days, reports as deleted exactly the number of completions dated strictly
more than 90 days before today, and on rows dated 91 and 89 days ago deletes
only the former and reports 1. -/
theorem C9_cleanup_old_completions_correct (cs : List HabitCompletion)
    (today : Int) :
    (∀ c : HabitCompletion, c ∈ (cleanup_old_completions cs today).1 ↔
      c ∈ cs ∧ ¬(today - c.date > 90))
    ∧ (cleanup_old_completions cs today).2 =
      (cs.filter fun c => decide (today - c.date > 90)).length
    ∧ cleanup_old_completions [⟨0, 9⟩, ⟨0, 11⟩] 100 = ([⟨0, 11⟩], 1) := by
  refine ⟨?_, ?_, rfl⟩
  · intro c
    simp only [cleanup_old_completions, List.mem_filter, Bool.not_eq_true',
      decide_eq_false_iff_not]
    constructor <;> rintro ⟨h, h2⟩ <;> exact ⟨h, by omega⟩
  · simp only [cleanup_old_completions]
    congr 1
    apply List.filter_congr
    intro c hc
    simp only [decide_eq_decide]
    omega

lemma validate_habit_consistency_error_of_lapsed (habit : Habit)
    (cs : List HabitCompletion) (today : Int) (k : Nat)
    (hpk : habit.pk = some k) (hcs : ∀ c ∈ cs, c.date < today - 7)
    (hcr : habit.created_at < today - 7) :
    validate_habit_consistency habit cs today = .error .habitInconsistent := by
  have hA : (cs.any fun c => decide (c.date ≥ today - 7)) = false := by
    simp only [List.any_eq_false, decide_eq_true_eq]
    intro c hc
    have := hcs c hc
    omega
  simp only [validate_habit_consistency, hpk]
  rw [hA]
  simp [hcr]

lemma save_error_of_lapsed (h : Habit) (cs : List HabitCompletion) (today : Int)
    (k : Nat) (hpk : h.pk = some k) (hcs : ∀ c ∈ cs, c.date < today - 7)
    (hcr : h.created_at < today - 7) :
    ∃ e, Habit.save h cs today = .error e := by
  cases hc : h.clean with
  | error e => exact ⟨e, by simp [Habit.save, hc]⟩
  | ok u =>
    by_cases hf : h.frequency > 7
    · exact ⟨.frequencyTooRare,
        by simp [Habit.save, hc, validate_habit_before_save, hf]⟩
    · exact ⟨.habitInconsistent,
        by simp [Habit.save, hc, validate_habit_before_save, hf,
          validate_habit_consistency_error_of_lapsed h cs today k hpk hcs hcr]⟩

/-- C10: for an already-persisted habit with no completion in the trailing 7
days whose creation date is more than 7 days in the past, every persist
through Habit.save fails, and in particular the toggle_public endpoint, which
only flips is_public before saving, also fails. -/
theorem C10_lapsed_habit_save_fails (habit : Habit) (cs : List HabitCompletion)
    (today : Int) (k : Nat) (hpk : habit.pk = some k)
    (hcs : ∀ c ∈ cs, c.date < today - 7) (hcr : habit.created_at < today - 7) :
    (∃ e, Habit.save habit cs today = .error e)
    ∧ (∃ e, toggle_public habit cs today = .error e) := by
  refine ⟨save_error_of_lapsed habit cs today k hpk hcs hcr, ?_⟩
  unfold toggle_public
  exact save_error_of_lapsed _ cs today k hpk hcs hcr

/-- Witness for C10 at a concrete lapsed habit: both the plain save and
toggle_public fail. -/
theorem C10_witness :
    (∃ e, Habit.save habit0 [] 10 = .error e)
    ∧ (∃ e, toggle_public habit0 [] 10 = .error e) :=
  C10_lapsed_habit_save_fails habit0 [] 10 1 rfl (by simp) (by decide)
